import Mathlib

/-!
Shallow embedding of the raft-project order-query system: the frontend
API client (`src/frontend/src/services/api.js`), the chat and results
components (`ChatPanel.jsx`, `Message.jsx`/`ResultsPanel`,
`StatsPanel.jsx`), and — where the Python backend is absent from the
sources — models of the pipeline orchestrator and reorder predictor
taken from the design document.
-/

namespace Raft

/-- A customer order as carried in the JSON response envelope
(ParsedOrder / ValidatedOrder of the data model; the frontend reads
`order_id`, `buyer`, `city`, `state`, `items`, `total`). -/
structure Order where
  order_id : Int
  buyer : String
  city : String
  state : String
  items : List String
  total : ℚ
  deriving Repr, DecidableEq

/-- A reorder prediction entry of `ml_predictions`. The design document
calls the label field `predicted_label`; on the wire, as the frontend
reads it (`pred.prediction` in `ResultsPanel`), it is `prediction`. -/
structure Prediction where
  order_id : Int
  reorder_probability : ℚ
  prediction : String
  deriving Repr, DecidableEq

/-- The terminal artifact of one pipeline run, as consumed by the
frontend. `filters_applied` is a JS object, embedded as its ordered
key/value entries (`Object.entries`); `error` is the empty string when
absent. -/
structure ResponseEnvelope where
  success : Bool
  total_parsed : Nat
  total_matched : Nat
  filters_applied : List (String × String)
  orders : List Order
  validation_warnings : List String
  ml_predictions : List Prediction
  error : String
  deriving Repr, DecidableEq

/-- The model-diagnostics object returned by the stats endpoint and
consumed by `StatsPanel`. The two mappings are embedded as their ordered
key/value entries. -/
structure Stats where
  accuracy : ℚ
  training_samples : Nat
  test_samples : Nat
  state_reorder_rates : List (String × ℚ)
  feature_importance : List (String × ℚ)
  deriving Repr, DecidableEq

/-! ## api.js -/

/-- `const API_BASE = '/api'` (api.js line 1). -/
def API_BASE : String := "/api"

/-- An HTTP request as issued by a frontend `fetch` call. -/
structure HttpRequest where
  url : String
  method : String
  headers : List (String × String)
  body : Option String
  deriving Repr, DecidableEq

/-- A fetch `Response` as api.js observes it: the status code and the
JSON value `res.json()` yields. -/
structure HttpResponse (α : Type) where
  status : Nat
  jsonBody : α
  deriving Repr, DecidableEq

/-- JS `Response.ok`: status in the 2xx range `[200, 299]`. -/
def respOk (status : Nat) : Bool :=
  decide (200 ≤ status ∧ status ≤ 299)

/-- One hexadecimal digit, lowercase, as `JSON.stringify` emits. -/
def hexDigit (n : Nat) : Char :=
  if n < 10 then Char.ofNat (48 + n) else Char.ofNat (87 + n)

/-- Four hexadecimal digits for a `\u00XX` escape. -/
def hex4 (n : Nat) : String :=
  String.mk [hexDigit (n / 4096 % 16), hexDigit (n / 256 % 16),
    hexDigit (n / 16 % 16), hexDigit (n % 16)]

/-- `JSON.stringify` escaping of one character inside a string value. -/
def jsonEscapeChar (c : Char) : String :=
  if c = '"' then "\\\""
  else if c = '\\' then "\\\\"
  else if c = Char.ofNat 8 then "\\b"
  else if c = Char.ofNat 12 then "\\f"
  else if c = '\n' then "\\n"
  else if c = Char.ofNat 13 then "\\r"
  else if c = Char.ofNat 9 then "\\t"
  else if c.toNat < 32 then "\\u" ++ hex4 c.toNat
  else String.singleton c

/-- `JSON.stringify` of a JS string. -/
def jsonStringifyString (s : String) : String :=
  "\"" ++ String.join (s.data.map jsonEscapeChar) ++ "\""

/-- `JSON.stringify({ query })` — the body api.js line 7 builds. -/
def queryBodyJson (q : String) : String :=
  "\x7b\"query\":" ++ jsonStringifyString q ++ "\x7d"

/-- The request `queryAgent` issues (api.js lines 4–8): a POST to
`API_BASE + '/query'` with a JSON content type and the serialized
query object as body. -/
def queryRequest (query : String) : HttpRequest :=
  { url := API_BASE ++ "/query"
    method := "POST"
    headers := [("Content-Type", "application/json")]
    body := some (queryBodyJson query) }

/-- `queryAgent` (api.js lines 3–11), with the browser `fetch`
passed explicitly. Returns the list of requests issued together with
either the parsed JSON body (2xx) or the thrown error message. -/
def queryAgent (fetchFn : HttpRequest → HttpResponse ResponseEnvelope)
    (query : String) : List HttpRequest × Except String ResponseEnvelope :=
  let res := fetchFn (queryRequest query)
  ([queryRequest query],
    if respOk res.status then Except.ok res.jsonBody
    else Except.error ("API error: " ++ toString res.status))

/-- The request `getStats` issues (api.js line 14): a bare
`fetch(API_BASE + '/stats')`, hence a GET with no headers and no body. -/
def statsRequest : HttpRequest :=
  { url := API_BASE ++ "/stats"
    method := "GET"
    headers := []
    body := none }

/-- `getStats` (api.js lines 13–17). -/
def getStats (fetchFn : HttpRequest → HttpResponse Stats) :
    List HttpRequest × Except String Stats :=
  let res := fetchFn statsRequest
  ([statsRequest],
    if respOk res.status then Except.ok res.jsonBody
    else Except.error ("API error: " ++ toString res.status))

/-! ## Sample values used by witnesses -/

/-- A concrete order for witness instantiations. -/
def sampleOrder : Order :=
  { order_id := 3, buyer := "Dana", city := "Akron", state := "OH",
    items := ["laptop", "mouse"], total := 999/2 }

/-- A concrete successful envelope for witness instantiations. -/
def sampleEnvelope : ResponseEnvelope :=
  { success := true, total_parsed := 20, total_matched := 1,
    filters_applied := [("state", "OH")], orders := [sampleOrder],
    validation_warnings := [],
    ml_predictions :=
      [{ order_id := 3, reorder_probability := 7/10,
         prediction := "likely_reorder" }],
    error := "" }

/-- A fetch stub answering every request with status 200 and the given
envelope. -/
def okFetch (e : ResponseEnvelope) :
    HttpRequest → HttpResponse ResponseEnvelope :=
  fun _ => { status := 200, jsonBody := e }

/-- A concrete stats object for witness instantiations. -/
def sampleStats : Stats :=
  { accuracy := 87, training_samples := 4000, test_samples := 1000,
    state_reorder_rates := [("OH", 62), ("TX", 55)],
    feature_importance := [("num_items", 20), ("avg_item_price", 35)] }

/-- A fetch stub answering every request with status 200 and the given
stats object. -/
def okStatsFetch (s : Stats) : HttpRequest → HttpResponse Stats :=
  fun _ => { status := 200, jsonBody := s }

/-- A fetch stub answering every request with the given non-2xx
status. -/
def failFetch (n : Nat) : HttpRequest → HttpResponse ResponseEnvelope :=
  fun _ => { status := n, jsonBody := sampleEnvelope }

/-- A concrete failed envelope (`success = false`) for witness
instantiations. -/
def sampleFailEnvelope : ResponseEnvelope :=
  { sampleEnvelope with
      success := false
      orders := []
      ml_predictions := []
      error := "SourceUnavailable" }

/-! ## Message.jsx: the Message bubble and the ResultsPanel -/

/-- One chat message as held in React state: its role, its text
content, and — for assistant messages — the attached envelope. -/
structure Msg where
  role : String
  content : String
  result : Option ResponseEnvelope
  deriving Repr, DecidableEq

/-- The sort both order tables apply:
`[...orders].sort((a, b) => a.order_id - b.order_id)` — a stable sort,
ascending by `order_id`, on a copy of the list. -/
def sortOrders (orders : List Order) : List Order :=
  orders.mergeSort (fun a b => decide (a.order_id ≤ b.order_id))

/-- The order rows the `Message` bubble's table displays: present only
for a successful result with at least one order
(`result && result.success && result.orders.length > 0`), sorted
ascending by `order_id`. -/
def messageTableRows (m : Msg) : Option (List Order) :=
  match m.result with
  | none => none
  | some r =>
      if r.success && decide (0 < r.orders.length) then
        some (sortOrders r.orders)
      else none

/-- `result.ml_predictions?.find(p => p.order_id === order.order_id)`. -/
def findPrediction (preds : List Prediction) (oid : Int) : Option Prediction :=
  preds.find? (fun p => p.order_id == oid)

/-- One rendered order card of the results panel: the order together
with the prediction entry found for its id, if any. -/
structure OrderCard where
  order : Order
  pred : Option Prediction
  deriving Repr, DecidableEq

/-- Whether a card's reorder indicator is marked likely:
`pred.prediction === 'likely_reorder'`. -/
def indicatorLikely (p : Prediction) : Bool :=
  p.prediction == "likely_reorder"

/-- JS `x.toFixed(0)` for a non-negative rational: the nearest integer,
ties rounded up. -/
def toFixed0 (q : ℚ) : Int := ⌊q + 1/2⌋

/-- The percentage text of a card's reorder indicator:
`(pred.reorder_probability * 100).toFixed(0)` followed by
`% reorder`. -/
def reorderPercentText (p : Prediction) : String :=
  toString (toFixed0 (p.reorder_probability * 100)) ++ "% reorder"

/-- What `ResultsPanel` renders for a given `result` prop. -/
inductive PanelView where
  | placeholder
  | errorCard (msg : String)
  | results (badge : String) (filterBadges : List String)
      (warnings : List String) (cards : List OrderCard)
  deriving Repr, DecidableEq

/-- The summary badge `{total_matched} of {total_parsed} matched`. -/
def matchedBadge (r : ResponseEnvelope) : String :=
  toString r.total_matched ++ " of " ++ toString r.total_parsed ++ " matched"

/-- One filter badge `{k}: {String(v)}`. -/
def filterBadge (kv : String × String) : String :=
  kv.1 ++ ": " ++ kv.2

/-- `ResultsPanel`: the placeholder without a result, an error card
showing `result.error` for a failed envelope, and otherwise the matched
badge, one filter badge per `filters_applied` entry, the validation
warnings, and one card per order — sorted ascending by `order_id`, each
paired with the prediction found for its id. -/
def resultsPanel (result : Option ResponseEnvelope) : PanelView :=
  match result with
  | none => PanelView.placeholder
  | some r =>
      if !r.success then PanelView.errorCard r.error
      else
        PanelView.results (matchedBadge r)
          (r.filters_applied.map filterBadge) r.validation_warnings
          ((sortOrders r.orders).map (fun o =>
            { order := o, pred := findPrediction r.ml_predictions o.order_id }))

/-- The filter badges of a rendered panel view. -/
def panelFilterBadges : PanelView → List String
  | PanelView.results _ fbs _ _ => fbs
  | _ => []

/-- The order cards of a rendered panel view. -/
def panelCards : PanelView → List OrderCard
  | PanelView.results _ _ _ cs => cs
  | _ => []

/-! ## StatsPanel.jsx -/

/-- The value-descending stable sort both StatsPanel lists apply:
`Object.entries(m).sort(([, a], [, b]) => b - a)`. -/
def sortByValueDesc (l : List (String × ℚ)) : List (String × ℚ) :=
  l.mergeSort (fun x y => decide (y.2 ≤ x.2))

/-- What `StatsPanel` renders once stats have loaded: exactly the
accuracy badge, the two sample counts, and the two mappings sorted
descending by value. -/
structure StatsView where
  accuracyBadge : String
  trainingSamples : Nat
  testSamples : Nat
  stateRows : List (String × ℚ)
  featureRows : List (String × ℚ)
  deriving Repr, DecidableEq

/-- The `StatsPanel` rendering of a loaded stats object. -/
def statsPanelView (s : Stats) : StatsView :=
  { accuracyBadge := toString s.accuracy ++ "% accuracy"
    trainingSamples := s.training_samples
    testSamples := s.test_samples
    stateRows := sortByValueDesc s.state_reorder_rates
    featureRows := sortByValueDesc s.feature_importance }

/-! ## ChatPanel.jsx -/

/-- The ` Filters: k=v, ...` suffix of the assistant summary, present
exactly when `filters_applied` has at least one key. -/
def filtersText (fa : List (String × String)) : String :=
  if 0 < fa.length then
    " Filters: " ++
      String.intercalate ", " (fa.map (fun kv => kv.1 ++ "=" ++ kv.2))
  else ""

/-- The assistant summary content built in `handleSubmit`:
`Found {m} of {p} orders.` plus the filter suffix on success,
`Error: {error}` on a failed envelope. -/
def summaryContent (r : ResponseEnvelope) : String :=
  if r.success then
    "Found " ++ toString r.total_matched ++ " of " ++
      toString r.total_parsed ++ " orders." ++ filtersText r.filters_applied
  else "Error: " ++ r.error

/-- JS `String.prototype.trim`: strip whitespace from both ends. -/
def jsTrim (s : String) : String :=
  String.mk
    (((s.data.dropWhile Char.isWhitespace).reverse.dropWhile
      Char.isWhitespace).reverse)

/-- The ChatPanel state `handleSubmit` touches: the input text, the
message list, and the loading flag. -/
structure ChatState where
  input : String
  messages : List Msg
  isLoading : Bool
  deriving Repr, DecidableEq

/-- The outcome of one `handleSubmit` call: the final state, how many
`queryAgent` calls were made, and the envelopes passed to `onResult`. -/
structure SubmitOutcome where
  state : ChatState
  apiCalls : Nat
  onResultCalls : List ResponseEnvelope
  deriving Repr, DecidableEq

/-- `handleSubmit`. `queryArg` is the optional suggestion argument; a
missing or empty argument falls back to the trimmed input
(`query || input.trim()`). The awaited `queryAgent` outcome is passed
in as `apiOutcome`, `Except.error` being the rejection the `catch`
block handles. The guard returns before any state change or API call;
otherwise the input is cleared, the user message appended, and the
assistant message appended with `isLoading` reset in `finally`. -/
def handleSubmit (queryArg : Option String)
    (apiOutcome : Except String ResponseEnvelope) (st : ChatState) :
    SubmitOutcome :=
  let q := match queryArg with
    | some s => if s = "" then jsTrim st.input else s
    | none => jsTrim st.input
  if q = "" ∨ st.isLoading = true then
    { state := st, apiCalls := 0, onResultCalls := [] }
  else
    let msgs1 := st.messages ++ [{ role := "user", content := q, result := none }]
    match apiOutcome with
    | Except.ok result =>
        { state :=
            { input := ""
              messages := msgs1 ++
                [{ role := "assistant", content := summaryContent result,
                   result := some result }]
              isLoading := false }
          apiCalls := 1
          onResultCalls := [result] }
    | Except.error msg =>
        { state :=
            { input := ""
              messages := msgs1 ++
                [{ role := "assistant",
                   content := "Error: " ++ msg ++
                     ". Make sure the backend is running (python main.py).",
                   result := none }]
              isLoading := false }
          apiCalls := 1
          onResultCalls := [] }

/-- A concrete idle chat state for witness instantiations. -/
def sampleChatState : ChatState :=
  { input := "", messages := [], isLoading := false }

/-- A concrete chat state whose input trims to the empty string, for
witness instantiations. -/
def sampleBlankState : ChatState :=
  { input := "   ", messages := [], isLoading := false }

/-! ## Backend pipeline, modelled from the design document
The Python backend (`agent.py`, `models.py`, `server.py`) is not among
the sources; the definitions below are modelled from the spec. -/

/-- Modelled from the spec: the FilterPredicate operator set
`{eq, gt, lt, gte, lte, contains, in}` (the Query Interpreter / Filter
Engine of `agent.py` is absent from `src/`). -/
inductive FilterOp where
  | eq | gt | lt | gte | lte | containsOp | inOp
  deriving Repr, DecidableEq

/-- Modelled from the spec: a predicate comparison value — a string, a
number, or a list of strings for the `in` operator. -/
inductive FilterValue where
  | str (s : String)
  | num (q : ℚ)
  | strList (l : List String)
  deriving Repr, DecidableEq

/-- Modelled from the spec: one FilterPredicate
`{field, operator, value}`. -/
structure FilterPredicate where
  field : String
  op : FilterOp
  value : FilterValue
  deriving Repr, DecidableEq

/-- Modelled from the spec: a FilterSet — a conjunction (AND) or a
small disjunction (OR) of predicates; `and []` is the empty FilterSet
matching everything. -/
inductive FilterSet where
  | and (ps : List FilterPredicate)
  | or (ps : List FilterPredicate)
  deriving Repr, DecidableEq

/-- Modelled from the spec: the value a validated order carries for a
named field. -/
def orderField (o : Order) : String → Option FilterValue
  | "order_id" => some (FilterValue.num (o.order_id : ℚ))
  | "buyer" => some (FilterValue.str o.buyer)
  | "city" => some (FilterValue.str o.city)
  | "state" => some (FilterValue.str o.state)
  | "items" => some (FilterValue.strList o.items)
  | "total" => some (FilterValue.num o.total)
  | _ => none

/-- Substring containment (JS `String.includes`), via `splitOn`. -/
def strContains (s sub : String) : Bool :=
  sub == "" || (s.splitOn sub).length != 1

/-- Modelled from the spec: evaluation of one predicate against an
order, with exact numeric/string comparison semantics per operator;
a predicate over a missing field or with mismatched types matches
nothing. -/
def evalPred (o : Order) (p : FilterPredicate) : Bool :=
  match orderField o p.field, p.op, p.value with
  | some (FilterValue.num a), FilterOp.eq, FilterValue.num b => a == b
  | some (FilterValue.str a), FilterOp.eq, FilterValue.str b => a == b
  | some (FilterValue.num a), FilterOp.gt, FilterValue.num b => decide (b < a)
  | some (FilterValue.num a), FilterOp.lt, FilterValue.num b => decide (a < b)
  | some (FilterValue.num a), FilterOp.gte, FilterValue.num b => decide (b ≤ a)
  | some (FilterValue.num a), FilterOp.lte, FilterValue.num b => decide (a ≤ b)
  | some (FilterValue.str a), FilterOp.containsOp, FilterValue.str b =>
      strContains a b
  | some (FilterValue.strList a), FilterOp.containsOp, FilterValue.str b =>
      a.any (fun it => strContains it b)
  | some (FilterValue.str a), FilterOp.inOp, FilterValue.strList l =>
      l.contains a
  | _, _, _ => false

/-- Modelled from the spec: FilterSet evaluation — AND over a
conjunction, OR over a disjunction. -/
def matchesFilterSet (fs : FilterSet) (o : Order) : Bool :=
  match fs with
  | FilterSet.and ps => ps.all (evalPred o)
  | FilterSet.or ps => ps.any (evalPred o)

/-- Modelled from the spec: the Filter Engine `apply` — the matched
subset of the validated records. -/
def applyFilters (fs : FilterSet) (orders : List Order) : List Order :=
  orders.filter (matchesFilterSet fs)

/-- Modelled from the spec: the Hallucination Validator — every order
the substantiation cross-check rejects is dropped and yields one
warning; survivors keep their order. The cross-reference test itself is
a parameter, since it correlates against the raw batch. -/
def validate (substantiated : Order → Bool) (parsed : List Order) :
    List Order × List String :=
  (parsed.filter substantiated,
    (parsed.filter (fun o => !substantiated o)).map
      (fun o => "Order " ++ toString o.order_id ++ ": hallucinated, removed"))

/-- Modelled from the spec: a rational stand-in for the logistic
sigmoid of the Reorder Predictor (`models.py` is absent from `src/`) —
like the logistic function it takes values inside `[0, 1]` and crosses
the `1/2` threshold exactly at raw score `0`. -/
def sigmoidQ (z : ℚ) : ℚ :=
  if 0 ≤ z then 1 - 1 / (2 * (1 + z)) else 1 / (2 * (1 - z))

/-- Modelled from the spec: the Reorder Predictor `score` — the trained
logistic-regression model reduced to its raw decision score (the linear
combination of the six engineered features), squashed to a probability,
with the label `likely_reorder` exactly at probability `≥ 0.5`. -/
def score (rawScore : Order → ℚ) (o : Order) : Prediction :=
  { order_id := o.order_id
    reorder_probability := sigmoidQ (rawScore o)
    prediction :=
      if 1/2 ≤ sigmoidQ (rawScore o) then "likely_reorder"
      else "unlikely_reorder" }

/-- Modelled from the spec: the failure envelope the Orchestrator
assembles from a stage error. -/
def failureEnvelope (msg : String) : ResponseEnvelope :=
  { success := false, total_parsed := 0, total_matched := 0,
    filters_applied := [], orders := [], validation_warnings := [],
    ml_predictions := [], error := msg }

/-- Modelled from the spec: the Pipeline Orchestrator — FETCH → EXTRACT
→ VALIDATE → INTERPRET → FILTER → SCORE → RESPOND, converting any stage
failure into a `success = false` envelope. The fetch outcome, the
extractor, and the interpreter are parameters (they wrap the external
source and the LLM); `interpret` yields the FilterSet together with its
`filters_applied` echo. -/
def runPipeline (substantiated : Order → Bool) (rawScore : Order → ℚ)
    (fetched : Except String (List String))
    (extractOutcome : List String → Except String (List Order))
    (interpret : String → FilterSet × List (String × String))
    (query : String) : ResponseEnvelope :=
  match fetched with
  | Except.error e => failureEnvelope e
  | Except.ok batch =>
      match extractOutcome batch with
      | Except.error e => failureEnvelope e
      | Except.ok parsed =>
          let vw := validate substantiated parsed
          let fsa := interpret query
          let matched := applyFilters fsa.1 vw.1
          { success := true
            total_parsed := parsed.length
            total_matched := matched.length
            filters_applied := fsa.2
            orders := matched
            validation_warnings := vw.2
            ml_predictions := matched.map (score rawScore)
            error := "" }

/-! ## C2, C3 -/

/-- C2 (amended): `queryAgent(query)` sends exactly one POST request,
to the path `/api/query` (the `/api` base plus `/query`), with a JSON
content type and body the JSON serialization of the object with the
single key `query`; when the response status is 2xx it returns the
response body parsed as JSON. -/
theorem queryAgent_request_correct
    (fetchFn : HttpRequest → HttpResponse ResponseEnvelope) (q : String)
    (hok : respOk (fetchFn (queryRequest q)).status = true) :
    (queryAgent fetchFn q).1 = [queryRequest q]
    ∧ (queryRequest q).method = "POST"
    ∧ (queryRequest q).url = "/api/query"
    ∧ (queryRequest q).headers = [("Content-Type", "application/json")]
    ∧ (queryRequest q).body = some (queryBodyJson q)
    ∧ (queryAgent fetchFn q).2 =
        Except.ok (fetchFn (queryRequest q)).jsonBody := by
  refine ⟨rfl, rfl, rfl, rfl, rfl, ?_⟩
  simp [queryAgent, hok]

/-- C2 witness: the amended statement instantiated at a concrete 200
fetch stub and a concrete query. -/
theorem queryAgent_request_correct_witness :
    respOk ((okFetch sampleEnvelope)
        (queryRequest "Orders under $100")).status = true
    ∧ ((queryAgent (okFetch sampleEnvelope) "Orders under $100").1 =
        [queryRequest "Orders under $100"]
      ∧ (queryRequest "Orders under $100").method = "POST"
      ∧ (queryRequest "Orders under $100").url = "/api/query"
      ∧ (queryRequest "Orders under $100").headers =
          [("Content-Type", "application/json")]
      ∧ (queryRequest "Orders under $100").body =
          some (queryBodyJson "Orders under $100")
      ∧ (queryAgent (okFetch sampleEnvelope) "Orders under $100").2 =
          Except.ok ((okFetch sampleEnvelope)
            (queryRequest "Orders under $100")).jsonBody) :=
  ⟨by decide,
    queryAgent_request_correct (okFetch sampleEnvelope) "Orders under $100"
      (by decide)⟩

/-- C2 counterexample: the request path is `/api/query`, not `/query`
as the claim states. -/
theorem queryAgent_path_counterexample :
    (queryRequest "Orders under $100").url = "/api/query"
    ∧ (queryRequest "Orders under $100").url ≠ "/query" := by
  constructor
  · rfl
  · decide

/-- C3: `queryAgent` and `getStats` throw the message `API error: `
followed by the status code exactly when the response status is not
2xx; a 2xx response is returned as its parsed body — the result depends
on the status alone, so a 2xx envelope with `success = false` is
returned normally and never causes a throw. -/
theorem api_error_iff_not_ok
    (f : HttpRequest → HttpResponse ResponseEnvelope)
    (g : HttpRequest → HttpResponse Stats) (q : String) :
    ((queryAgent f q).2 =
        Except.error ("API error: " ++ toString (f (queryRequest q)).status)
      ↔ respOk (f (queryRequest q)).status = false)
    ∧ ((queryAgent f q).2 = Except.ok (f (queryRequest q)).jsonBody
      ↔ respOk (f (queryRequest q)).status = true)
    ∧ ((getStats g).2 =
        Except.error ("API error: " ++ toString (g statsRequest).status)
      ↔ respOk (g statsRequest).status = false)
    ∧ ((getStats g).2 = Except.ok (g statsRequest).jsonBody
      ↔ respOk (g statsRequest).status = true) := by
  refine ⟨?_, ?_, ?_, ?_⟩
  all_goals
    simp only [queryAgent, getStats]
    cases h : respOk (f (queryRequest q)).status <;>
      cases h2 : respOk (g statsRequest).status <;> simp [h, h2]

/-- C3 witness: instantiated at a 2xx fetch stub whose envelope has
`success = false`, showing it is returned, not thrown. -/
theorem api_error_iff_not_ok_witness :
    ((queryAgent (okFetch sampleFailEnvelope) "hi").2 =
      Except.error ("API error: " ++ toString ((okFetch sampleFailEnvelope)
        (queryRequest "hi")).status)
      ↔ respOk ((okFetch sampleFailEnvelope)
          (queryRequest "hi")).status = false)
    ∧ ((queryAgent (okFetch sampleFailEnvelope) "hi").2 =
        Except.ok ((okFetch sampleFailEnvelope)
          (queryRequest "hi")).jsonBody
      ↔ respOk ((okFetch sampleFailEnvelope)
          (queryRequest "hi")).status = true)
    ∧ ((getStats (okStatsFetch sampleStats)).2 =
        Except.error ("API error: " ++ toString ((okStatsFetch sampleStats)
          statsRequest).status)
      ↔ respOk ((okStatsFetch sampleStats) statsRequest).status = false)
    ∧ ((getStats (okStatsFetch sampleStats)).2 =
        Except.ok ((okStatsFetch sampleStats) statsRequest).jsonBody
      ↔ respOk ((okStatsFetch sampleStats) statsRequest).status = true) :=
  api_error_iff_not_ok (okFetch sampleFailEnvelope)
    (okStatsFetch sampleStats) "hi"

/-! ## Sorting helper lemmas -/

/-- `sortOrders` permutes its input. -/
theorem sortOrders_perm (l : List Order) : (sortOrders l).Perm l := by
  unfold sortOrders
  exact List.mergeSort_perm l _

/-- `sortOrders` sorts ascending by `order_id`. -/
theorem sortOrders_sorted (l : List Order) :
    (sortOrders l).Pairwise (fun a b => a.order_id ≤ b.order_id) := by
  unfold sortOrders
  have htrans : ∀ a b c : Order, decide (a.order_id ≤ b.order_id) = true →
      decide (b.order_id ≤ c.order_id) = true →
      decide (a.order_id ≤ c.order_id) = true := by
    intro a b c hab hbc
    simp only [decide_eq_true_eq] at hab hbc ⊢
    exact le_trans hab hbc
  have htotal : ∀ a b : Order, (decide (a.order_id ≤ b.order_id) ||
      decide (b.order_id ≤ a.order_id)) = true := by
    intro a b
    simp only [Bool.or_eq_true, decide_eq_true_eq]
    exact le_total _ _
  exact (List.sorted_mergeSort htrans htotal l).imp
    (fun hab => by simpa using hab)

/-- `sortByValueDesc` permutes its input. -/
theorem sortByValueDesc_perm (l : List (String × ℚ)) :
    (sortByValueDesc l).Perm l := by
  unfold sortByValueDesc
  exact List.mergeSort_perm l _

/-- `sortByValueDesc` sorts descending by value. -/
theorem sortByValueDesc_sorted (l : List (String × ℚ)) :
    (sortByValueDesc l).Pairwise (fun a b => b.2 ≤ a.2) := by
  unfold sortByValueDesc
  have htrans : ∀ a b c : String × ℚ, decide (b.2 ≤ a.2) = true →
      decide (c.2 ≤ b.2) = true → decide (c.2 ≤ a.2) = true := by
    intro a b c hab hbc
    simp only [decide_eq_true_eq] at hab hbc ⊢
    exact le_trans hbc hab
  have htotal : ∀ a b : String × ℚ, (decide (b.2 ≤ a.2) ||
      decide (a.2 ≤ b.2)) = true := by
    intro a b
    simp only [Bool.or_eq_true, decide_eq_true_eq]
    exact le_total _ _
  exact (List.sorted_mergeSort htrans htotal l).imp
    (fun hab => by simpa using hab)

/-! ## C1 -/

/-- C1: every envelope a pipeline run produces has
`total_matched ≤ total_parsed` and exactly `total_matched` orders, so
the results-panel badge `{total_matched} of {total_parsed} matched`
never shows a first number larger than the second. -/
theorem pipeline_totals_invariant (substantiated : Order → Bool)
    (rawScore : Order → ℚ) (fetched : Except String (List String))
    (extractOutcome : List String → Except String (List Order))
    (interpret : String → FilterSet × List (String × String))
    (query : String) :
    (runPipeline substantiated rawScore fetched extractOutcome interpret
        query).total_matched ≤
      (runPipeline substantiated rawScore fetched extractOutcome interpret
        query).total_parsed
    ∧ (runPipeline substantiated rawScore fetched extractOutcome interpret
        query).orders.length =
      (runPipeline substantiated rawScore fetched extractOutcome interpret
        query).total_matched
    ∧ matchedBadge (runPipeline substantiated rawScore fetched
        extractOutcome interpret query) =
      toString (runPipeline substantiated rawScore fetched extractOutcome
        interpret query).total_matched ++ " of " ++
      toString (runPipeline substantiated rawScore fetched extractOutcome
        interpret query).total_parsed ++ " matched" := by
  refine ⟨?_, ?_, rfl⟩
  · cases fetched with
    | error e => simp [runPipeline, failureEnvelope]
    | ok batch =>
      cases h : extractOutcome batch with
      | error e => simp [runPipeline, failureEnvelope, h]
      | ok parsed =>
        simp only [runPipeline, h, applyFilters, validate]
        exact le_trans (List.length_filter_le _ _) (List.length_filter_le _ _)
  · cases fetched with
    | error e => simp [runPipeline, failureEnvelope]
    | ok batch =>
      cases h : extractOutcome batch with
      | error e => simp [runPipeline, failureEnvelope, h]
      | ok parsed => simp [runPipeline, h]

/-! ## C4 -/

/-- The rational sigmoid stays inside `[0, 1]` and reaches `1/2`
exactly from raw score `0` upward. -/
theorem sigmoidQ_mem (z : ℚ) :
    0 ≤ sigmoidQ z ∧ sigmoidQ z ≤ 1 ∧ (1/2 ≤ sigmoidQ z ↔ 0 ≤ z) := by
  unfold sigmoidQ
  by_cases hz : (0:ℚ) ≤ z
  · rw [if_pos hz]
    have h2 : (0:ℚ) < 2 * (1 + z) := by linarith
    have h3 : 1 / (2 * (1 + z)) ≤ 1/2 := by
      rw [div_le_div_iff₀ h2 (by norm_num : (0:ℚ) < 2)]
      linarith
    have h4 : 0 < 1 / (2 * (1 + z)) := by positivity
    refine ⟨by linarith, by linarith, ?_⟩
    exact ⟨fun _ => hz, fun _ => by linarith⟩
  · rw [if_neg hz]
    have hz' : z < 0 := not_le.mp hz
    have h1 : (0:ℚ) < 2 * (1 - z) := by linarith
    have h4 : 0 < 1 / (2 * (1 - z)) := by positivity
    have h5 : 1 / (2 * (1 - z)) < 1/2 := by
      rw [div_lt_div_iff₀ h1 (by norm_num : (0:ℚ) < 2)]
      linarith
    exact ⟨le_of_lt h4, by linarith, fun hc => by linarith, fun hc => absurd hc hz⟩

/-- C4: every prediction `score` produces carries a probability in
`[0, 1]` and the label `likely_reorder` exactly when the probability is
at least `1/2`; the results panel marks a card likely exactly when the
found prediction's label field is `likely_reorder`, and renders the
probability as a rounded percentage. -/
theorem score_prediction_correct (rawScore : Order → ℚ) (o : Order)
    (p : Prediction) :
    (score rawScore o).order_id = o.order_id
    ∧ 0 ≤ (score rawScore o).reorder_probability
    ∧ (score rawScore o).reorder_probability ≤ 1
    ∧ ((score rawScore o).prediction = "likely_reorder" ↔
        1/2 ≤ (score rawScore o).reorder_probability)
    ∧ (indicatorLikely p = true ↔ p.prediction = "likely_reorder")
    ∧ reorderPercentText p =
        toString (toFixed0 (p.reorder_probability * 100)) ++ "% reorder" := by
  obtain ⟨h0, h1, hiff⟩ := sigmoidQ_mem (rawScore o)
  refine ⟨rfl, h0, h1, ?_, ?_, rfl⟩
  · by_cases hz : (1:ℚ)/2 ≤ sigmoidQ (rawScore o)
    · simp [score, hz]
    · simp [score, hz]
  · simp [indicatorLikely]

/-! ## C5 -/

/-- C5: for a failed envelope the assistant summary content is
`Error: ` followed by the envelope's error string, the results panel
renders the error card with exactly that string instead of an orders
table (no cards), and `handleSubmit` appends an assistant message with
that content. -/
theorem failed_envelope_rendering (r : ResponseEnvelope) (st : ChatState)
    (q : String) (h : r.success = false) (hq : q ≠ "")
    (hl : st.isLoading = false) :
    summaryContent r = "Error: " ++ r.error
    ∧ resultsPanel (some r) = PanelView.errorCard r.error
    ∧ panelCards (resultsPanel (some r)) = []
    ∧ (handleSubmit (some q) (Except.ok r) st).state.messages =
        st.messages ++
          [{ role := "user", content := q, result := none },
           { role := "assistant", content := "Error: " ++ r.error,
             result := some r }] := by
  have hs : summaryContent r = "Error: " ++ r.error := by
    simp [summaryContent, h]
  refine ⟨hs, ?_, ?_, ?_⟩
  · simp [resultsPanel, h]
  · simp [resultsPanel, panelCards, h]
  · simp [handleSubmit, hq, hl, hs]

/-- C5 witness: instantiated at a concrete failed envelope, idle state
and nonempty query. -/
theorem failed_envelope_rendering_witness :
    sampleFailEnvelope.success = false
    ∧ "hello" ≠ ""
    ∧ sampleChatState.isLoading = false
    ∧ (summaryContent sampleFailEnvelope =
        "Error: " ++ sampleFailEnvelope.error
      ∧ resultsPanel (some sampleFailEnvelope) =
          PanelView.errorCard sampleFailEnvelope.error
      ∧ panelCards (resultsPanel (some sampleFailEnvelope)) = []
      ∧ (handleSubmit (some "hello") (Except.ok sampleFailEnvelope)
            sampleChatState).state.messages =
          sampleChatState.messages ++
            [{ role := "user", content := "hello", result := none },
             { role := "assistant",
               content := "Error: " ++ sampleFailEnvelope.error,
               result := some sampleFailEnvelope }]) :=
  ⟨rfl, by decide, rfl,
    failed_envelope_rendering sampleFailEnvelope sampleChatState "hello"
      rfl (by decide) rfl⟩

/-! ## C6 -/

/-- C6: for a successful envelope the assistant summary is
`Found {total_matched} of {total_parsed} orders.` followed by
` Filters: k=v, ...` exactly when `filters_applied` is nonempty, and
the results panel renders one `k: v` badge per `filters_applied`
entry. -/
theorem success_summary_and_filter_badges (r : ResponseEnvelope)
    (h : r.success = true) :
    summaryContent r =
      "Found " ++ toString r.total_matched ++ " of " ++
        toString r.total_parsed ++ " orders." ++
        (if r.filters_applied = [] then ""
         else " Filters: " ++ String.intercalate ", "
           (r.filters_applied.map (fun kv => kv.1 ++ "=" ++ kv.2)))
    ∧ panelFilterBadges (resultsPanel (some r)) =
        r.filters_applied.map filterBadge
    ∧ (panelFilterBadges (resultsPanel (some r))).length =
        r.filters_applied.length := by
  refine ⟨?_, ?_, ?_⟩
  · simp only [summaryContent, h, if_true]
    cases hfa : r.filters_applied with
    | nil => simp [filtersText]
    | cons a l => simp [filtersText]
  · simp [resultsPanel, h, panelFilterBadges]
  · simp [resultsPanel, h, panelFilterBadges]

/-- C6 witness: instantiated at a concrete successful envelope with one
applied filter. -/
theorem success_summary_and_filter_badges_witness :
    sampleEnvelope.success = true
    ∧ (summaryContent sampleEnvelope =
        "Found " ++ toString sampleEnvelope.total_matched ++ " of " ++
          toString sampleEnvelope.total_parsed ++ " orders." ++
          (if sampleEnvelope.filters_applied = [] then ""
           else " Filters: " ++ String.intercalate ", "
             (sampleEnvelope.filters_applied.map
               (fun kv => kv.1 ++ "=" ++ kv.2)))
      ∧ panelFilterBadges (resultsPanel (some sampleEnvelope)) =
          sampleEnvelope.filters_applied.map filterBadge
      ∧ (panelFilterBadges (resultsPanel (some sampleEnvelope))).length =
          sampleEnvelope.filters_applied.length) :=
  ⟨rfl, success_summary_and_filter_badges sampleEnvelope rfl⟩

/-! ## C7 -/

/-- C7 (amended): `getStats` issues exactly one GET request, to the
path `/api/stats`, returning the parsed diagnostics on a 2xx status;
the stats panel reads exactly the accuracy, the two sample counts, and
the two mappings, rendering each mapping sorted descending by value. -/
theorem getStats_request_and_stats_view
    (g : HttpRequest → HttpResponse Stats) (s : Stats)
    (hok : respOk (g statsRequest).status = true) :
    (getStats g).1 = [statsRequest]
    ∧ statsRequest.method = "GET"
    ∧ statsRequest.url = "/api/stats"
    ∧ (getStats g).2 = Except.ok (g statsRequest).jsonBody
    ∧ (statsPanelView s).accuracyBadge = toString s.accuracy ++ "% accuracy"
    ∧ (statsPanelView s).trainingSamples = s.training_samples
    ∧ (statsPanelView s).testSamples = s.test_samples
    ∧ (statsPanelView s).stateRows.Perm s.state_reorder_rates
    ∧ (statsPanelView s).stateRows.Pairwise (fun a b => b.2 ≤ a.2)
    ∧ (statsPanelView s).featureRows.Perm s.feature_importance
    ∧ (statsPanelView s).featureRows.Pairwise (fun a b => b.2 ≤ a.2) := by
  refine ⟨rfl, rfl, rfl, ?_, rfl, rfl, rfl, sortByValueDesc_perm _,
    sortByValueDesc_sorted _, sortByValueDesc_perm _,
    sortByValueDesc_sorted _⟩
  simp [getStats, hok]

/-- C7 witness: the amended statement instantiated at a concrete 200
stats stub. -/
theorem getStats_request_and_stats_view_witness :
    respOk ((okStatsFetch sampleStats) statsRequest).status = true
    ∧ ((getStats (okStatsFetch sampleStats)).1 = [statsRequest]
      ∧ statsRequest.method = "GET"
      ∧ statsRequest.url = "/api/stats"
      ∧ (getStats (okStatsFetch sampleStats)).2 =
          Except.ok ((okStatsFetch sampleStats) statsRequest).jsonBody
      ∧ (statsPanelView sampleStats).accuracyBadge =
          toString sampleStats.accuracy ++ "% accuracy"
      ∧ (statsPanelView sampleStats).trainingSamples =
          sampleStats.training_samples
      ∧ (statsPanelView sampleStats).testSamples = sampleStats.test_samples
      ∧ (statsPanelView sampleStats).stateRows.Perm
          sampleStats.state_reorder_rates
      ∧ (statsPanelView sampleStats).stateRows.Pairwise
          (fun a b => b.2 ≤ a.2)
      ∧ (statsPanelView sampleStats).featureRows.Perm
          sampleStats.feature_importance
      ∧ (statsPanelView sampleStats).featureRows.Pairwise
          (fun a b => b.2 ≤ a.2)) :=
  ⟨by decide,
    getStats_request_and_stats_view (okStatsFetch sampleStats) sampleStats
      (by decide)⟩

/-- C7 counterexample: the stats request path is `/api/stats`, not
`/stats` as the claim states. -/
theorem getStats_path_counterexample :
    statsRequest.url = "/api/stats" ∧ statsRequest.url ≠ "/stats" := by
  constructor
  · rfl
  · decide

/-! ## C8 -/

/-- C8: for a successful envelope, both the message-bubble table and
the results panel display the orders sorted ascending by `order_id`,
and the displayed sequence is a permutation of `result.orders`. -/
theorem orders_rendered_sorted (r : ResponseEnvelope) (c : String)
    (h : r.success = true) (hn : 0 < r.orders.length) :
    messageTableRows { role := "assistant", content := c, result := some r } =
      some (sortOrders r.orders)
    ∧ (panelCards (resultsPanel (some r))).map OrderCard.order =
        sortOrders r.orders
    ∧ (sortOrders r.orders).Perm r.orders
    ∧ (sortOrders r.orders).Pairwise (fun a b => a.order_id ≤ b.order_id) := by
  refine ⟨?_, ?_, sortOrders_perm _, sortOrders_sorted _⟩
  · simp [messageTableRows, h, hn]
  · have hmap : (OrderCard.order ∘ fun o : Order =>
        ({ order := o, pred := findPrediction r.ml_predictions o.order_id } :
          OrderCard)) = id := rfl
    simp [resultsPanel, h, panelCards, List.map_map, hmap]

/-- C8 witness: instantiated at a concrete successful envelope with one
order. -/
theorem orders_rendered_sorted_witness :
    sampleEnvelope.success = true
    ∧ 0 < sampleEnvelope.orders.length
    ∧ (messageTableRows
        { role := "assistant", content := "Hi", result := some sampleEnvelope }
        = some (sortOrders sampleEnvelope.orders)
      ∧ (panelCards (resultsPanel (some sampleEnvelope))).map
          OrderCard.order = sortOrders sampleEnvelope.orders
      ∧ (sortOrders sampleEnvelope.orders).Perm sampleEnvelope.orders
      ∧ (sortOrders sampleEnvelope.orders).Pairwise
          (fun a b => a.order_id ≤ b.order_id)) :=
  ⟨rfl, by decide,
    orders_rendered_sorted sampleEnvelope "Hi" rfl (by decide)⟩

/-! ## C9 -/

/-- C9: when the submitted query trims to the empty string or a request
is already in flight, `handleSubmit` performs no API call and leaves
the input, messages and loading flag unchanged. -/
theorem guard_blocks_submit (st : ChatState)
    (outcome : Except String ResponseEnvelope)
    (h : jsTrim st.input = "" ∨ st.isLoading = true) :
    handleSubmit none outcome st =
      { state := st, apiCalls := 0, onResultCalls := [] } := by
  unfold handleSubmit
  rcases h with h | h
  · simp [h]
  · simp [h]

/-- C9 witness: instantiated at a concrete whitespace-only input. -/
theorem guard_blocks_submit_witness :
    (jsTrim sampleBlankState.input = "" ∨ sampleBlankState.isLoading = true)
    ∧ handleSubmit none (Except.error "down") sampleBlankState =
        { state := sampleBlankState, apiCalls := 0, onResultCalls := [] } :=
  ⟨Or.inl (by decide),
    guard_blocks_submit sampleBlankState (Except.error "down")
      (Or.inl (by decide))⟩

/-! ## C10 -/

/-- C10: a submission passing the guard appends exactly one user and
one assistant message and resets the loading flag whether `queryAgent`
resolves or rejects; on rejection the assistant content is `Error: `
plus the thrown message plus the backend hint, and `onResult` is not
invoked. -/
theorem submit_appends_and_resets (st : ChatState) (q : String)
    (result : ResponseEnvelope) (errMsg : String)
    (hq : q ≠ "") (hl : st.isLoading = false) :
    (handleSubmit (some q) (Except.ok result) st).state.messages =
      st.messages ++
        [{ role := "user", content := q, result := none },
         { role := "assistant", content := summaryContent result,
           result := some result }]
    ∧ (handleSubmit (some q) (Except.ok result) st).state.isLoading = false
    ∧ (handleSubmit (some q) (Except.ok result) st).onResultCalls = [result]
    ∧ (handleSubmit (some q) (Except.ok result) st).apiCalls = 1
    ∧ (handleSubmit (some q) (Except.error errMsg) st).state.messages =
      st.messages ++
        [{ role := "user", content := q, result := none },
         { role := "assistant",
           content := "Error: " ++ errMsg ++
             ". Make sure the backend is running (python main.py).",
           result := none }]
    ∧ (handleSubmit (some q) (Except.error errMsg) st).state.isLoading = false
    ∧ (handleSubmit (some q) (Except.error errMsg) st).onResultCalls = []
    ∧ (handleSubmit (some q) (Except.error errMsg) st).apiCalls = 1 := by
  unfold handleSubmit
  simp [hq, hl]

/-- C10 witness: instantiated at a concrete idle state, query, resolved
envelope and rejection message. -/
theorem submit_appends_and_resets_witness :
    "Orders under $100" ≠ ""
    ∧ sampleChatState.isLoading = false
    ∧ ((handleSubmit (some "Orders under $100") (Except.ok sampleEnvelope)
          sampleChatState).state.messages =
        sampleChatState.messages ++
          [{ role := "user", content := "Orders under $100", result := none },
           { role := "assistant", content := summaryContent sampleEnvelope,
             result := some sampleEnvelope }]
      ∧ (handleSubmit (some "Orders under $100") (Except.ok sampleEnvelope)
          sampleChatState).state.isLoading = false
      ∧ (handleSubmit (some "Orders under $100") (Except.ok sampleEnvelope)
          sampleChatState).onResultCalls = [sampleEnvelope]
      ∧ (handleSubmit (some "Orders under $100") (Except.ok sampleEnvelope)
          sampleChatState).apiCalls = 1
      ∧ (handleSubmit (some "Orders under $100")
          (Except.error "API error: 500") sampleChatState).state.messages =
        sampleChatState.messages ++
          [{ role := "user", content := "Orders under $100", result := none },
           { role := "assistant",
             content := "Error: " ++ "API error: 500" ++
               ". Make sure the backend is running (python main.py).",
             result := none }]
      ∧ (handleSubmit (some "Orders under $100")
          (Except.error "API error: 500") sampleChatState).state.isLoading =
            false
      ∧ (handleSubmit (some "Orders under $100")
          (Except.error "API error: 500") sampleChatState).onResultCalls = []
      ∧ (handleSubmit (some "Orders under $100")
          (Except.error "API error: 500") sampleChatState).apiCalls = 1) :=
  ⟨by decide, rfl,
    submit_appends_and_resets sampleChatState "Orders under $100"
      sampleEnvelope "API error: 500" (by decide) rfl⟩

end Raft
